import Mathlib

/-!
Shallow embedding of the `TextToSpeech` facade class from
`src/classes/TextToSpeech.class.ts` (and its compiled/declaration
counterparts), a wrapper over the Web Speech API.

Modelling choices:
* JavaScript numbers are embedded as `ℚ` (only order, `Math.max` and
  `Math.min` on finite values matter here, and those are exact).
* The mutable `SpeechSynthesisUtterance` object is held on an explicit
  heap `Nat → SpeechSynthesisUtterance H`; a `TextToSpeech` instance
  stores the reference (`utterance` field) into that heap, so JavaScript
  reference equality of facades is value equality of the `TextToSpeech`
  structure.
* Utterance event handlers (function values in JS) are an opaque type
  parameter `H`; `voiceschanged` callbacks are an opaque type parameter
  `C`.  Handler identity is reference identity in JS, which the opaque
  parameter models.
* The ambient `speechSynthesis` engine object is an explicit
  `SpeechSynthesisState` record (voice catalog plus the list of
  `voiceschanged` listeners accumulated by `addEventListener`).
-/

/-- An engine-owned voice descriptor; the facade only ever reads `lang`
(`voice.lang.includes(filter)` in `getVoices`). -/
structure SpeechSynthesisVoice where
  name : String
  lang : String
  deriving DecidableEq, Repr

/-- JavaScript `String.prototype.includes`: `s.includes(sub)` holds when
`sub` occurs contiguously (case-sensitively) inside `s`. -/
def jsStringIncludes (s searchString : String) : Bool :=
  decide (searchString.toList <:+: s.toList)

/-- The state of one `SpeechSynthesisUtterance` object.  Field defaults
are the Web Speech API defaults established by
`new SpeechSynthesisUtterance()` (text/lang empty, voice null,
volume/rate/pitch 1, no handlers). -/
structure SpeechSynthesisUtterance (H : Type) where
  text : String := ""
  lang : String := ""
  voice : Option SpeechSynthesisVoice := none
  volume : ℚ := 1
  rate : ℚ := 1
  pitch : ℚ := 1
  onstart : Option H := none
  onend : Option H := none
  onerror : Option H := none
  onpause : Option H := none
  onresume : Option H := none
  onboundary : Option H := none
  onmark : Option H := none

/-- The object heap holding `SpeechSynthesisUtterance` objects,
addressed by reference. -/
def UtteranceHeap (H : Type) : Type := Nat → SpeechSynthesisUtterance H

/-- In-place mutation of the object at reference `r`
(`this.utterance.<field> = ...` in the source). -/
def UtteranceHeap.mutate (σ : UtteranceHeap H) (r : Nat)
    (f : SpeechSynthesisUtterance H → SpeechSynthesisUtterance H) :
    UtteranceHeap H :=
  fun q => if q = r then f (σ q) else σ q

/-- A `TextToSpeech` facade instance: its single private readonly field
`utterance` holds the reference to its `SpeechSynthesisUtterance`. -/
structure TextToSpeech where
  utterance : Nat
  deriving DecidableEq, Repr

/-- The ambient `speechSynthesis` engine: its current voice catalog and
the listeners registered via `addEventListener("voiceschanged", ...)`. -/
structure SpeechSynthesisState (C : Type) where
  voices : List SpeechSynthesisVoice
  voiceschangedListeners : List C

namespace TextToSpeech

/-- Constructor: `constructor() { this.utterance = new SpeechSynthesisUtterance(); }`:
allocates a fresh utterance object at the (fresh) reference `fresh` and
stores that reference. -/
def new (σ : UtteranceHeap H) (fresh : Nat) :
    UtteranceHeap H × TextToSpeech :=
  (fun q => if q = fresh then {} else σ q, ⟨fresh⟩)

/-- Method `private clamp(min, value, max)`:
`Math.min(Math.max(value, min), max)`, with the source's intermediate
variables. -/
def clamp (min value max : ℚ) : ℚ :=
  let minClampedValue := Max.max value min
  let fullyClampedValue := Min.min minClampedValue max
  fullyClampedValue

/-- Method `setVoiceRate`: `this.utterance.rate = this.clamp(0, rate, 10);
return this;` -/
def setVoiceRate (self : TextToSpeech) (σ : UtteranceHeap H)
    (rate : ℚ) : UtteranceHeap H × TextToSpeech :=
  (σ.mutate self.utterance (fun u => { u with rate := clamp 0 rate 10 }),
   self)

/-- Method `setVoicePitch`: `this.utterance.pitch = this.clamp(0, pitch, 3);
return this;` -/
def setVoicePitch (self : TextToSpeech) (σ : UtteranceHeap H)
    (pitch : ℚ) : UtteranceHeap H × TextToSpeech :=
  (σ.mutate self.utterance (fun u => { u with pitch := clamp 0 pitch 3 }),
   self)

/-- Method `setVolume`: `this.utterance.volume = this.clamp(0, volumeLevel, 1);
return this;` -/
def setVolume (self : TextToSpeech) (σ : UtteranceHeap H)
    (volumeLevel : ℚ) : UtteranceHeap H × TextToSpeech :=
  (σ.mutate self.utterance
     (fun u => { u with volume := clamp 0 volumeLevel 1 }),
   self)

/-- Method `setLanguage`: `this.utterance.lang = languageCode; return this;` -/
def setLanguage (self : TextToSpeech) (σ : UtteranceHeap H)
    (languageCode : String) : UtteranceHeap H × TextToSpeech :=
  (σ.mutate self.utterance (fun u => { u with lang := languageCode }),
   self)

/-- Method `setVoiceSpeech`: `this.utterance.voice = voiceObject; return this;` -/
def setVoiceSpeech (self : TextToSpeech) (σ : UtteranceHeap H)
    (voiceObject : SpeechSynthesisVoice) : UtteranceHeap H × TextToSpeech :=
  (σ.mutate self.utterance (fun u => { u with voice := some voiceObject }),
   self)

/-- Method `setVoiceText`: `this.utterance.text = utteranceText; return this;` -/
def setVoiceText (self : TextToSpeech) (σ : UtteranceHeap H)
    (utteranceText : String) : UtteranceHeap H × TextToSpeech :=
  (σ.mutate self.utterance (fun u => { u with text := utteranceText }),
   self)

/-- Method `setOnBoundary`: `this.utterance.onboundary = handler; return this;` -/
def setOnBoundary (self : TextToSpeech) (σ : UtteranceHeap H)
    (handler : H) : UtteranceHeap H × TextToSpeech :=
  (σ.mutate self.utterance (fun u => { u with onboundary := some handler }),
   self)

/-- Method `setOnEnd`: `this.utterance.onend = handler; return this;` -/
def setOnEnd (self : TextToSpeech) (σ : UtteranceHeap H)
    (handler : H) : UtteranceHeap H × TextToSpeech :=
  (σ.mutate self.utterance (fun u => { u with onend := some handler }),
   self)

/-- Method `setOnError`: `this.utterance.onerror = handler; return this;` -/
def setOnError (self : TextToSpeech) (σ : UtteranceHeap H)
    (handler : H) : UtteranceHeap H × TextToSpeech :=
  (σ.mutate self.utterance (fun u => { u with onerror := some handler }),
   self)

/-- Method `setOnMark`: `this.utterance.onmark = handler; return this;` -/
def setOnMark (self : TextToSpeech) (σ : UtteranceHeap H)
    (handler : H) : UtteranceHeap H × TextToSpeech :=
  (σ.mutate self.utterance (fun u => { u with onmark := some handler }),
   self)

/-- Method `setOnPause`: `this.utterance.onpause = handler; return this;` -/
def setOnPause (self : TextToSpeech) (σ : UtteranceHeap H)
    (handler : H) : UtteranceHeap H × TextToSpeech :=
  (σ.mutate self.utterance (fun u => { u with onpause := some handler }),
   self)

/-- Method `setOnResume`: `this.utterance.onresume = handler; return this;` -/
def setOnResume (self : TextToSpeech) (σ : UtteranceHeap H)
    (handler : H) : UtteranceHeap H × TextToSpeech :=
  (σ.mutate self.utterance (fun u => { u with onresume := some handler }),
   self)

/-- Method `setOnStart`: `this.utterance.onstart = handler; return this;` -/
def setOnStart (self : TextToSpeech) (σ : UtteranceHeap H)
    (handler : H) : UtteranceHeap H × TextToSpeech :=
  (σ.mutate self.utterance (fun u => { u with onstart := some handler }),
   self)

/-- Method `getVoices(optionalCountryCodeFilter?)`: reads
`speechSynthesis.getVoices()`; with no filter (or, since `!""` is truthy
in JS, an empty-string filter) returns the whole catalog, otherwise
filters by `voice.lang.includes(filter)`. -/
def getVoices (voices : List SpeechSynthesisVoice)
    (optionalCountryCodeFilter : Option String) :
    List SpeechSynthesisVoice :=
  match optionalCountryCodeFilter with
  | none => voices
  | some f =>
    if f = "" then voices
    else voices.filter (fun voice => jsStringIncludes voice.lang f)

/-- Method `setOnVoicesChanged`:
`speechSynthesis.addEventListener("voiceschanged", () => callback(this.getVoices())); return this;`
— appends one more engine-wide listener (never removes any). -/
def setOnVoicesChanged (self : TextToSpeech)
    (eng : SpeechSynthesisState C) (callback : C) :
    SpeechSynthesisState C × TextToSpeech :=
  ({ eng with
     voiceschangedListeners := eng.voiceschangedListeners ++ [callback] },
   self)

end TextToSpeech

/-- One firing of the engine's `voiceschanged` event: every registered
listener thunk runs `callback(this.getVoices())`, i.e. each callback is
invoked with the engine's current unfiltered catalog.  The result lists
the invocations `(callback, argument)` in listener-registration order. -/
def fireVoicesChanged (eng : SpeechSynthesisState C) :
    List (C × List SpeechSynthesisVoice) :=
  eng.voiceschangedListeners.map
    (fun c => (c, TextToSpeech.getVoices eng.voices none))

/-- Reference definition of clamping, following the spec's words:
restrict a value to a closed range by taking the max of the value and
the lower bound, then the min of that result and the upper bound. -/
def clampReference (lower value upper : ℚ) : ℚ :=
  Min.min (Max.max value lower) upper

/-- The clamped-range invariant on one utterance configuration:
rate in [0, 10], pitch in [0, 3], volume in [0, 1]. -/
def UtteranceConfigClamped (u : SpeechSynthesisUtterance H) : Prop :=
  0 ≤ u.rate ∧ u.rate ≤ 10 ∧
  0 ≤ u.pitch ∧ u.pitch ≤ 3 ∧
  0 ≤ u.volume ∧ u.volume ≤ 1

/-- One configuration-setter call on a facade, as a step relation on the
pair (object heap, facade reference): any setter of the class that
mutates the utterance configuration, with an arbitrary argument. -/
inductive SetterStep (H : Type) :
    UtteranceHeap H × TextToSpeech → UtteranceHeap H × TextToSpeech → Prop where
  | voiceRate (σ : UtteranceHeap H) (self : TextToSpeech) (v : ℚ) :
      SetterStep H (σ, self) (self.setVoiceRate σ v)
  | voicePitch (σ : UtteranceHeap H) (self : TextToSpeech) (v : ℚ) :
      SetterStep H (σ, self) (self.setVoicePitch σ v)
  | volume (σ : UtteranceHeap H) (self : TextToSpeech) (v : ℚ) :
      SetterStep H (σ, self) (self.setVolume σ v)
  | language (σ : UtteranceHeap H) (self : TextToSpeech) (s : String) :
      SetterStep H (σ, self) (self.setLanguage σ s)
  | voiceSpeech (σ : UtteranceHeap H) (self : TextToSpeech)
      (vo : SpeechSynthesisVoice) :
      SetterStep H (σ, self) (self.setVoiceSpeech σ vo)
  | voiceText (σ : UtteranceHeap H) (self : TextToSpeech) (t : String) :
      SetterStep H (σ, self) (self.setVoiceText σ t)
  | onBoundary (σ : UtteranceHeap H) (self : TextToSpeech) (h : H) :
      SetterStep H (σ, self) (self.setOnBoundary σ h)
  | onEnd (σ : UtteranceHeap H) (self : TextToSpeech) (h : H) :
      SetterStep H (σ, self) (self.setOnEnd σ h)
  | onError (σ : UtteranceHeap H) (self : TextToSpeech) (h : H) :
      SetterStep H (σ, self) (self.setOnError σ h)
  | onMark (σ : UtteranceHeap H) (self : TextToSpeech) (h : H) :
      SetterStep H (σ, self) (self.setOnMark σ h)
  | onPause (σ : UtteranceHeap H) (self : TextToSpeech) (h : H) :
      SetterStep H (σ, self) (self.setOnPause σ h)
  | onResume (σ : UtteranceHeap H) (self : TextToSpeech) (h : H) :
      SetterStep H (σ, self) (self.setOnResume σ h)
  | onStart (σ : UtteranceHeap H) (self : TextToSpeech) (h : H) :
      SetterStep H (σ, self) (self.setOnStart σ h)

/-- Helper: the range and identity properties of `clamp lo v hi` when
the bounds are ordered. -/
theorem clamp_of_le {lo hi : ℚ} (hlohi : lo ≤ hi) (v : ℚ) :
    (lo ≤ TextToSpeech.clamp lo v hi ∧ TextToSpeech.clamp lo v hi ≤ hi) ∧
    ((lo ≤ v ∧ v ≤ hi) → TextToSpeech.clamp lo v hi = v) ∧
    (v < lo → TextToSpeech.clamp lo v hi = lo) ∧
    (hi < v → TextToSpeech.clamp lo v hi = hi) := by
  simp only [TextToSpeech.clamp]
  refine ⟨⟨le_min (le_max_right _ _) hlohi, min_le_right _ _⟩, ?_, ?_, ?_⟩
  · rintro ⟨h1, h2⟩
    rw [max_eq_left h1, min_eq_left h2]
  · intro h
    rw [max_eq_right h.le, min_eq_left hlohi]
  · intro h
    rw [max_eq_left (hlohi.trans h.le), min_eq_right h.le]

/-- C1: the private clamp function equals the reference definition
min(max(value, lower), upper); for every value v, clamp(0, v, 10) lies
in [0, 10], equals v when 0 ≤ v ≤ 10, equals 0 when v < 0, and equals
10 when v > 10; the analogous properties hold for clamp(0, v, 3) and
clamp(0, v, 1). -/
theorem clamp_reference_and_range_properties :
    (∀ lower v upper : ℚ,
      TextToSpeech.clamp lower v upper = clampReference lower v upper) ∧
    (∀ v : ℚ,
      (0 ≤ TextToSpeech.clamp 0 v 10 ∧ TextToSpeech.clamp 0 v 10 ≤ 10) ∧
      ((0 ≤ v ∧ v ≤ 10) → TextToSpeech.clamp 0 v 10 = v) ∧
      (v < 0 → TextToSpeech.clamp 0 v 10 = 0) ∧
      (10 < v → TextToSpeech.clamp 0 v 10 = 10)) ∧
    (∀ v : ℚ,
      (0 ≤ TextToSpeech.clamp 0 v 3 ∧ TextToSpeech.clamp 0 v 3 ≤ 3) ∧
      ((0 ≤ v ∧ v ≤ 3) → TextToSpeech.clamp 0 v 3 = v) ∧
      (v < 0 → TextToSpeech.clamp 0 v 3 = 0) ∧
      (3 < v → TextToSpeech.clamp 0 v 3 = 3)) ∧
    (∀ v : ℚ,
      (0 ≤ TextToSpeech.clamp 0 v 1 ∧ TextToSpeech.clamp 0 v 1 ≤ 1) ∧
      ((0 ≤ v ∧ v ≤ 1) → TextToSpeech.clamp 0 v 1 = v) ∧
      (v < 0 → TextToSpeech.clamp 0 v 1 = 0) ∧
      (1 < v → TextToSpeech.clamp 0 v 1 = 1)) :=
  ⟨fun _ _ _ => rfl,
   fun v => clamp_of_le (by norm_num) v,
   fun v => clamp_of_le (by norm_num) v,
   fun v => clamp_of_le (by norm_num) v⟩

/-- Witness for C1 at concrete inputs. -/
theorem clamp_reference_and_range_properties_witness :
    TextToSpeech.clamp 0 7 10 = 7 ∧
    TextToSpeech.clamp 0 (-7) 10 = 0 ∧
    TextToSpeech.clamp 0 42 10 = 10 ∧
    TextToSpeech.clamp 0 5 3 = 3 ∧
    TextToSpeech.clamp 0 (1/2) 1 = 1/2 :=
  ⟨(clamp_reference_and_range_properties.2.1 7).2.1 (by norm_num),
   (clamp_reference_and_range_properties.2.1 (-7)).2.2.1 (by norm_num),
   (clamp_reference_and_range_properties.2.1 42).2.2.2 (by norm_num),
   (clamp_reference_and_range_properties.2.2.1 5).2.2.2 (by norm_num),
   (clamp_reference_and_range_properties.2.2.2 (1/2)).2.1 (by norm_num)⟩

/-- C8: for every triple (min, value, max) with min > max,
clamp(min, value, max) = max — the lower bound is clipped first, the
upper bound second, so degenerate bounds yield the upper bound. -/
theorem clamp_degenerate_bounds (lo v hi : ℚ) (h : hi < lo) :
    TextToSpeech.clamp lo v hi = hi := by
  simp only [TextToSpeech.clamp]
  exact min_eq_right (h.le.trans (le_max_right v lo))

/-- Witness for C8 at concrete inputs. -/
theorem clamp_degenerate_bounds_witness :
    (1 : ℚ) < 5 ∧ TextToSpeech.clamp 5 3 1 = 1 :=
  ⟨by norm_num, clamp_degenerate_bounds 5 3 1 (by norm_num)⟩

/-- C2: for every numeric input v, setVoiceRate stores clamp(0, v, 10)
as the rate, setVoicePitch stores clamp(0, v, 3) as the pitch, and
setVolume stores clamp(0, v, 1) as the volume; in particular rate -5
stores 0, rate 99 stores 10, and rate 4 stores 4. -/
theorem setters_store_clamped_values (H : Type) :
    ∀ (σ : UtteranceHeap H) (self : TextToSpeech) (v : ℚ),
      ((self.setVoiceRate σ v).1 self.utterance).rate
        = TextToSpeech.clamp 0 v 10 ∧
      ((self.setVoicePitch σ v).1 self.utterance).pitch
        = TextToSpeech.clamp 0 v 3 ∧
      ((self.setVolume σ v).1 self.utterance).volume
        = TextToSpeech.clamp 0 v 1 ∧
      ((self.setVoiceRate σ (-5)).1 self.utterance).rate = 0 ∧
      ((self.setVoiceRate σ 99).1 self.utterance).rate = 10 ∧
      ((self.setVoiceRate σ 4).1 self.utterance).rate = 4 := by
  intro σ self v
  refine ⟨?_, ?_, ?_, ?_, ?_, ?_⟩ <;>
    simp [TextToSpeech.setVoiceRate, TextToSpeech.setVoicePitch,
      TextToSpeech.setVolume, UtteranceHeap.mutate] <;>
    decide

/-- C4: getVoices with no filter returns the full catalog in order;
getVoices with filter f returns exactly the subsequence of voices whose
language tag contains f as a case-sensitive substring; on an empty
catalog the result is empty. -/
theorem getVoices_filter_spec :
    ∀ (voices : List SpeechSynthesisVoice) (f : String),
      TextToSpeech.getVoices voices none = voices ∧
      TextToSpeech.getVoices voices (some f)
        = voices.filter (fun voice => jsStringIncludes voice.lang f) ∧
      (∀ g : Option String, TextToSpeech.getVoices [] g = []) := by
  intro voices f
  refine ⟨rfl, ?_, ?_⟩
  · by_cases hf : f = ""
    · subst hf
      simp only [TextToSpeech.getVoices, if_pos rfl]
      exact (List.filter_eq_self.mpr
        (fun a _ => by simp [jsStringIncludes])).symm
    · simp [TextToSpeech.getVoices, hf]
  · intro g
    cases g with
    | none => rfl
    | some g =>
        simp only [TextToSpeech.getVoices, List.filter_nil]
        split <;> rfl

/-- C5: every configuration setter (the six config setters, the seven
utterance-scoped handler setters and setOnVoicesChanged) returns a
reference equal to the facade instance it was called on. -/
theorem setters_return_self (H C : Type) :
    ∀ (σ : UtteranceHeap H) (eng : SpeechSynthesisState C)
      (self : TextToSpeech) (q : ℚ) (s : String)
      (vo : SpeechSynthesisVoice) (h : H) (c : C),
      (self.setVoiceRate σ q).2 = self ∧
      (self.setVoicePitch σ q).2 = self ∧
      (self.setVolume σ q).2 = self ∧
      (self.setLanguage σ s).2 = self ∧
      (self.setVoiceSpeech σ vo).2 = self ∧
      (self.setVoiceText σ s).2 = self ∧
      (self.setOnBoundary σ h).2 = self ∧
      (self.setOnEnd σ h).2 = self ∧
      (self.setOnError σ h).2 = self ∧
      (self.setOnMark σ h).2 = self ∧
      (self.setOnPause σ h).2 = self ∧
      (self.setOnResume σ h).2 = self ∧
      (self.setOnStart σ h).2 = self ∧
      (self.setOnVoicesChanged eng c).2 = self :=
  fun _ _ _ _ _ _ _ _ =>
    ⟨rfl, rfl, rfl, rfl, rfl, rfl, rfl, rfl, rfl, rfl, rfl, rfl, rfl, rfl⟩

/-- C6: for each of the seven utterance-scoped event kinds, calling its
handler setter twice (first with h1, then with h2) leaves exactly the
second handler registered for that kind — the second call overwrites
the first, so at most one callback is registered per kind. -/
theorem utterance_handler_setters_overwrite (H : Type) :
    ∀ (σ : UtteranceHeap H) (self : TextToSpeech) (h1 h2 : H),
      ((self.setOnStart (self.setOnStart σ h1).1 h2).1
        self.utterance).onstart = some h2 ∧
      ((self.setOnEnd (self.setOnEnd σ h1).1 h2).1
        self.utterance).onend = some h2 ∧
      ((self.setOnError (self.setOnError σ h1).1 h2).1
        self.utterance).onerror = some h2 ∧
      ((self.setOnPause (self.setOnPause σ h1).1 h2).1
        self.utterance).onpause = some h2 ∧
      ((self.setOnResume (self.setOnResume σ h1).1 h2).1
        self.utterance).onresume = some h2 ∧
      ((self.setOnBoundary (self.setOnBoundary σ h1).1 h2).1
        self.utterance).onboundary = some h2 ∧
      ((self.setOnMark (self.setOnMark σ h1).1 h2).1
        self.utterance).onmark = some h2 := by
  intro σ self h1 h2
  refine ⟨?_, ?_, ?_, ?_, ?_, ?_, ?_⟩ <;>
    simp [TextToSpeech.setOnStart, TextToSpeech.setOnEnd,
      TextToSpeech.setOnError, TextToSpeech.setOnPause,
      TextToSpeech.setOnResume, TextToSpeech.setOnBoundary,
      TextToSpeech.setOnMark, UtteranceHeap.mutate]

/-- C7: after setOnVoicesChanged(callback), each firing of the
engine-wide voiceschanged notification additionally invokes callback
with the result of getVoices with no filter, which is the engine's full
current catalog. -/
theorem voiceschanged_callback_receives_full_catalog (C : Type) :
    ∀ (eng : SpeechSynthesisState C) (self : TextToSpeech) (callback : C),
      fireVoicesChanged (self.setOnVoicesChanged eng callback).1
        = fireVoicesChanged eng
          ++ [(callback, TextToSpeech.getVoices eng.voices none)] ∧
      TextToSpeech.getVoices eng.voices none = eng.voices := by
  intro eng self callback
  refine ⟨?_, rfl⟩
  simp [fireVoicesChanged, TextToSpeech.setOnVoicesChanged]

/-- Helper: folding setOnVoicesChanged over a list of callbacks keeps
the catalog and appends the callbacks to the listener list. -/
theorem foldl_setOnVoicesChanged (self : TextToSpeech) :
    ∀ (cs : List C) (eng : SpeechSynthesisState C),
      cs.foldl (fun e c => (self.setOnVoicesChanged e c).1) eng
        = { voices := eng.voices,
            voiceschangedListeners := eng.voiceschangedListeners ++ cs } := by
  intro cs
  induction cs with
  | nil => intro eng; simp
  | cons c cs ih =>
      intro eng
      rw [List.foldl_cons, ih]
      simp [TextToSpeech.setOnVoicesChanged]

/-- C9: repeated setOnVoicesChanged calls accumulate rather than
replace: after registering callbacks c1..cn, the listener list is the
old list extended by all of them in order, and each firing of the
voiceschanged notification invokes every one of them (with the current
catalog). -/
theorem voiceschanged_listeners_accumulate (C : Type) :
    ∀ (eng : SpeechSynthesisState C) (self : TextToSpeech) (cs : List C),
      (cs.foldl (fun e c => (self.setOnVoicesChanged e c).1)
          eng).voiceschangedListeners
        = eng.voiceschangedListeners ++ cs ∧
      fireVoicesChanged
          (cs.foldl (fun e c => (self.setOnVoicesChanged e c).1) eng)
        = (eng.voiceschangedListeners ++ cs).map
            (fun c => (c, TextToSpeech.getVoices eng.voices none)) := by
  intro eng self cs
  rw [foldl_setOnVoicesChanged]
  exact ⟨rfl, rfl⟩

/-- C3: in every state reachable from construction by any sequence of
setter calls, the rate, pitch and volume stored in the utterance
configuration lie within [0, 10], [0, 3] and [0, 1] respectively — no
unclamped value is ever observable. -/
theorem config_fields_always_clamped (H : Type) (σ0 : UtteranceHeap H)
    (fresh : Nat) (s : UtteranceHeap H × TextToSpeech)
    (hreach : Relation.ReflTransGen (SetterStep H)
      (TextToSpeech.new σ0 fresh) s) :
    UtteranceConfigClamped (s.1 s.2.utterance) := by
  induction hreach with
  | refl =>
      simp only [TextToSpeech.new, UtteranceConfigClamped, if_pos rfl]
      norm_num
  | tail hab hbc ih =>
      cases hbc with
      | voiceRate σ self v =>
          simp only [TextToSpeech.setVoiceRate, UtteranceHeap.mutate,
            UtteranceConfigClamped, if_pos rfl] at ih ⊢
          exact ⟨(clamp_of_le (by norm_num) v).1.1,
            (clamp_of_le (by norm_num) v).1.2, ih.2.2⟩
      | voicePitch σ self v =>
          simp only [TextToSpeech.setVoicePitch, UtteranceHeap.mutate,
            UtteranceConfigClamped, if_pos rfl] at ih ⊢
          exact ⟨ih.1, ih.2.1, (clamp_of_le (by norm_num) v).1.1,
            (clamp_of_le (by norm_num) v).1.2, ih.2.2.2.2⟩
      | volume σ self v =>
          simp only [TextToSpeech.setVolume, UtteranceHeap.mutate,
            UtteranceConfigClamped, if_pos rfl] at ih ⊢
          exact ⟨ih.1, ih.2.1, ih.2.2.1, ih.2.2.2.1,
            (clamp_of_le (by norm_num) v).1.1,
            (clamp_of_le (by norm_num) v).1.2⟩
      | language σ self s =>
          simpa only [TextToSpeech.setLanguage, UtteranceHeap.mutate,
            UtteranceConfigClamped, if_pos rfl] using ih
      | voiceSpeech σ self vo =>
          simpa only [TextToSpeech.setVoiceSpeech, UtteranceHeap.mutate,
            UtteranceConfigClamped, if_pos rfl] using ih
      | voiceText σ self t =>
          simpa only [TextToSpeech.setVoiceText, UtteranceHeap.mutate,
            UtteranceConfigClamped, if_pos rfl] using ih
      | onBoundary σ self h =>
          simpa only [TextToSpeech.setOnBoundary, UtteranceHeap.mutate,
            UtteranceConfigClamped, if_pos rfl] using ih
      | onEnd σ self h =>
          simpa only [TextToSpeech.setOnEnd, UtteranceHeap.mutate,
            UtteranceConfigClamped, if_pos rfl] using ih
      | onError σ self h =>
          simpa only [TextToSpeech.setOnError, UtteranceHeap.mutate,
            UtteranceConfigClamped, if_pos rfl] using ih
      | onMark σ self h =>
          simpa only [TextToSpeech.setOnMark, UtteranceHeap.mutate,
            UtteranceConfigClamped, if_pos rfl] using ih
      | onPause σ self h =>
          simpa only [TextToSpeech.setOnPause, UtteranceHeap.mutate,
            UtteranceConfigClamped, if_pos rfl] using ih
      | onResume σ self h =>
          simpa only [TextToSpeech.setOnResume, UtteranceHeap.mutate,
            UtteranceConfigClamped, if_pos rfl] using ih
      | onStart σ self h =>
          simpa only [TextToSpeech.setOnStart, UtteranceHeap.mutate,
            UtteranceConfigClamped, if_pos rfl] using ih

/-- Witness for C3: a concrete reachable state (construct, then set
rate 99) satisfies the invariant. -/
theorem config_fields_always_clamped_witness :
    UtteranceConfigClamped
      (((TextToSpeech.new (H := Nat) (fun _ => {}) 0).2.setVoiceRate
          (TextToSpeech.new (H := Nat) (fun _ => {}) 0).1 99).1
        ((TextToSpeech.new (H := Nat) (fun _ => {}) 0).2.setVoiceRate
          (TextToSpeech.new (H := Nat) (fun _ => {}) 0).1 99).2.utterance) :=
  config_fields_always_clamped Nat (fun _ => {}) 0 _
    (Relation.ReflTransGen.single
      (SetterStep.voiceRate (TextToSpeech.new (fun _ => {}) 0).1
        (TextToSpeech.new (fun _ => {}) 0).2 99))

/-- C10: frame property of the configuration setters — each setter
rewrites exactly its own field of the utterance configuration at the
facade's reference, leaves every other heap object unchanged, and
returns a facade whose stored utterance reference is unchanged (the
configuration object is created at construction and never replaced). -/
theorem setters_frame_property (H : Type) :
    ∀ (σ : UtteranceHeap H) (self : TextToSpeech) (v : ℚ) (s t : String)
      (vo : SpeechSynthesisVoice) (fresh : Nat),
      ((self.setVoiceRate σ v).1 self.utterance
          = { σ self.utterance with rate := TextToSpeech.clamp 0 v 10 } ∧
        (∀ q, q ≠ self.utterance → (self.setVoiceRate σ v).1 q = σ q) ∧
        (self.setVoiceRate σ v).2.utterance = self.utterance) ∧
      ((self.setVoicePitch σ v).1 self.utterance
          = { σ self.utterance with pitch := TextToSpeech.clamp 0 v 3 } ∧
        (∀ q, q ≠ self.utterance → (self.setVoicePitch σ v).1 q = σ q) ∧
        (self.setVoicePitch σ v).2.utterance = self.utterance) ∧
      ((self.setVolume σ v).1 self.utterance
          = { σ self.utterance with volume := TextToSpeech.clamp 0 v 1 } ∧
        (∀ q, q ≠ self.utterance → (self.setVolume σ v).1 q = σ q) ∧
        (self.setVolume σ v).2.utterance = self.utterance) ∧
      ((self.setLanguage σ s).1 self.utterance
          = { σ self.utterance with lang := s } ∧
        (∀ q, q ≠ self.utterance → (self.setLanguage σ s).1 q = σ q) ∧
        (self.setLanguage σ s).2.utterance = self.utterance) ∧
      ((self.setVoiceSpeech σ vo).1 self.utterance
          = { σ self.utterance with voice := some vo } ∧
        (∀ q, q ≠ self.utterance → (self.setVoiceSpeech σ vo).1 q = σ q) ∧
        (self.setVoiceSpeech σ vo).2.utterance = self.utterance) ∧
      ((self.setVoiceText σ t).1 self.utterance
          = { σ self.utterance with text := t } ∧
        (∀ q, q ≠ self.utterance → (self.setVoiceText σ t).1 q = σ q) ∧
        (self.setVoiceText σ t).2.utterance = self.utterance) ∧
      (TextToSpeech.new σ fresh).2.utterance = fresh := by
  intro σ self v s t vo fresh
  refine ⟨⟨?_, ?_, rfl⟩, ⟨?_, ?_, rfl⟩, ⟨?_, ?_, rfl⟩, ⟨?_, ?_, rfl⟩,
    ⟨?_, ?_, rfl⟩, ⟨?_, ?_, rfl⟩, rfl⟩ <;>
    first
    | (intro q hq;
       simp [TextToSpeech.setVoiceRate, TextToSpeech.setVoicePitch,
         TextToSpeech.setVolume, TextToSpeech.setLanguage,
         TextToSpeech.setVoiceSpeech, TextToSpeech.setVoiceText,
         UtteranceHeap.mutate, hq])
    | simp [TextToSpeech.setVoiceRate, TextToSpeech.setVoicePitch,
        TextToSpeech.setVolume, TextToSpeech.setLanguage,
        TextToSpeech.setVoiceSpeech, TextToSpeech.setVoiceText,
        UtteranceHeap.mutate]

/-- Witness for C10: on a concrete heap with the facade at reference 0,
setting the rate leaves the object at reference 1 untouched. -/
theorem setters_frame_property_witness :
    ((⟨0⟩ : TextToSpeech).setVoiceRate
        (fun _ => ({} : SpeechSynthesisUtterance Nat)) 7).1 1
      = (fun _ => ({} : SpeechSynthesisUtterance Nat)) 1 :=
  (setters_frame_property Nat (fun _ => {}) ⟨0⟩ 7 "" "" ⟨"", ""⟩ 0).1.2.1
    1 (by decide)
